import Mathlib

/-!
Shallow embedding of the NuQuantum edalize-plugins sources:
  src/edalize/tools/flist.py   (class Flist, dataclass FileList)
  src/edalize/tools/xcelium.py (class Xcelium)
  src/edalize/flows/depcheck.py (class Depcheck)
Python dicts that preserve insertion order are embedded as association
lists; logging calls are embedded as an explicit list of log events;
exceptions are embedded as Except.
-/

/-- Semantics of Python str.startswith on explicit character lists. -/
def isCharPre : List Char → List Char → Bool
  | [], _ => true
  | _ :: _, [] => false
  | a :: as, b :: bs => a == b && isCharPre as bs

/-- Python s.startswith(p). -/
def startswith (s p : String) : Bool := isCharPre p.data s.data

/-- Python s.endswith(p). -/
def endswith (s p : String) : Bool := isCharPre p.data.reverse s.data.reverse

/-- Concatenation of the lists produced for each element, in order. -/
def listJoinMap (g : α → List β) : List α → List β
  | [] => []
  | a :: l => g a ++ listJoinMap g l

/-- One edalize file specification dictionary (EDAM file entry).
The dictionary keys used by the sources are name, file_type,
is_include_file, include_path and logical_name. -/
structure FileRecord where
  name : String
  file_type : String
  is_include_file : Bool := false
  include_path : String := ""
  logical_name : Option String := none
deriving Repr, DecidableEq

/-- Severity of a logger call in the sources. -/
inductive LogLevel
  | warning
  | error
deriving Repr, DecidableEq

/-- One logger.warning / logger.error call. -/
structure LogEvent where
  level : LogLevel
  msg : String
deriving Repr, DecidableEq

/-- flist.py dataclass FileList: collects files into logical groups. -/
structure FileList where
  incdirs : List String := []
  rtl_files : List String := []
  vlt_files : List String := []
  cpp_incdirs : List String := []
  cpp_files : List String := []
  depfiles : List String := []
  unused_files : List FileRecord := []
deriving Repr, DecidableEq

/-- flist.py Flist._RTL_SOURCE_TYPES. -/
def _RTL_SOURCE_TYPES : List String :=
  ["systemVerilogSource", "verilogSource", "vhdlSource", "vhdlSource-2008",
   "vhdlSource-93"]

/-- Modelled from the spec: Edatool._add_include_dir is defined in the
upstream edalize base class, which is not among this repository's sources.
Per the spec, files flagged as include-directory carriers contribute their
directory to the include-dir group instead of a source group.  The record's
include_path field holds the contributed directory.  Returns the updated
group and whether the record was an include-directory carrier. -/
def _add_include_dir (f : FileRecord) (incdirs : List String) :
    List String × Bool :=
  if f.is_include_file then (incdirs ++ [f.include_path], true)
  else (incdirs, false)

/-- flist.py lines 97-101: the indices of the file-type filters whose
text is a string-prefix of the file type, in filter order. -/
def matchIndices (file_types : List String) (file_type : String) : List Nat :=
  ((file_types.enum.filter (fun p => startswith file_type p.2)).map Prod.fst)

/-- The warning issued at flist.py lines 105-110 when a file type matches
several filters. -/
def multiMatchWarning : LogEvent :=
  ⟨.warning, "File type matched multiple prefixes, proceeding with the first match"⟩

/-- The error issued at flist.py lines 124-129 for an unsupported matched
file type. -/
def unsupportedTypeError (matched_type : String) : LogEvent :=
  ⟨.error, "We found a file of type " ++ matched_type ++
    " which flist currently does not support"⟩

/-- flist.py lines 115-129: the match statement dispatching on the matched
file type.  Returns the updated FileList and the log events it emits. -/
def classify_as (matched_type : String) (f : FileRecord) (r : FileList) :
    FileList × List LogEvent :=
  if matched_type ∈ _RTL_SOURCE_TYPES then
    let (dirs, isInc) := _add_include_dir f r.incdirs
    let r1 := { r with incdirs := dirs }
    (if isInc then r1 else { r1 with rtl_files := r1.rtl_files ++ [f.name] }, [])
  else if matched_type = "vlt" then
    ({ r with vlt_files := r.vlt_files ++ [f.name] }, [])
  else if matched_type = "cppSource" then
    let (dirs, isInc) := _add_include_dir f r.cpp_incdirs
    let r1 := { r with cpp_incdirs := dirs }
    (if isInc then r1 else { r1 with cpp_files := r1.cpp_files ++ [f.name] }, [])
  else
    (r, [unsupportedTypeError matched_type])

/-- flist.py lines 93-136: the body of the classification loop for a single
file record. -/
def generate_one (file_types : List String) (r : FileList) (f : FileRecord) :
    FileList × List LogEvent :=
  match matchIndices file_types f.file_type with
  | [] => ({ r with unused_files := r.unused_files ++ [f] }, [])
  | idx :: rest =>
    let warns : List LogEvent := if rest.isEmpty then [] else [multiMatchWarning]
    let (r1, errs) := classify_as (file_types.getD idx "") f r
    ({ r1 with depfiles := r1.depfiles ++ [f.name] }, warns ++ errs)

/-- One iteration of the classification loop, threading the log. -/
def generate_step (file_types : List String)
    (acc : FileList × List LogEvent) (f : FileRecord) :
    FileList × List LogEvent :=
  let s := generate_one file_types acc.1 f
  (s.1, acc.2 ++ s.2)

/-- flist.py Flist._generate_file_list (lines 78-138), with the logger
calls made explicit in the second component. -/
def _generate_file_list (files : List FileRecord) (file_types : List String) :
    FileList × List LogEvent :=
  files.foldl (generate_step file_types) ({}, [])

/-- The spec scenario: the matched type of a record is the filter text at
the first matching index, if any. -/
def matchedType (file_types : List String) (f : FileRecord) : Option String :=
  match matchIndices file_types f.file_type with
  | [] => none
  | idx :: _ => some (file_types.getD idx "")

/-- The closed set of categories the match statement recognises. -/
inductive MatchCategory
  | rtl
  | vlt
  | cpp
  | unsupported
deriving Repr, DecidableEq

/-- Category of a matched file type, following the order of the cases of
the match statement at flist.py lines 115-129. -/
def categoryOf (t : String) : MatchCategory :=
  if t ∈ _RTL_SOURCE_TYPES then .rtl
  else if t = "vlt" then .vlt
  else if t = "cppSource" then .cpp
  else .unsupported

/-- The destination a single record ends up in. -/
inductive GroupTag
  | incdir
  | rtl
  | vlt
  | cppinc
  | cpp
  | unsupported
  | unused
deriving Repr, DecidableEq

/-- Destination group of a record, read off the control flow of
Flist._generate_file_list. -/
def groupOf (file_types : List String) (f : FileRecord) : GroupTag :=
  match matchedType file_types f with
  | none => .unused
  | some t =>
    match categoryOf t with
    | .rtl => if f.is_include_file then .incdir else .rtl
    | .vlt => .vlt
    | .cpp => if f.is_include_file then .cppinc else .cpp
    | .unsupported => .unsupported

def pIncdir (ft : List String) (f : FileRecord) : Bool :=
  match groupOf ft f with | .incdir => true | _ => false

def pRtl (ft : List String) (f : FileRecord) : Bool :=
  match groupOf ft f with | .rtl => true | _ => false

def pVlt (ft : List String) (f : FileRecord) : Bool :=
  match groupOf ft f with | .vlt => true | _ => false

def pCppInc (ft : List String) (f : FileRecord) : Bool :=
  match groupOf ft f with | .cppinc => true | _ => false

def pCpp (ft : List String) (f : FileRecord) : Bool :=
  match groupOf ft f with | .cpp => true | _ => false

def pUnsupported (ft : List String) (f : FileRecord) : Bool :=
  match groupOf ft f with | .unsupported => true | _ => false

/-- Whether the record matched some filter (flist.py line 104). -/
def pMatched (ft : List String) (f : FileRecord) : Bool :=
  match groupOf ft f with | .unused => false | _ => true

def dIncdirs (ft : List String) (f : FileRecord) : List String :=
  match groupOf ft f with | .incdir => [f.include_path] | _ => []

def dRtl (ft : List String) (f : FileRecord) : List String :=
  match groupOf ft f with | .rtl => [f.name] | _ => []

def dVlt (ft : List String) (f : FileRecord) : List String :=
  match groupOf ft f with | .vlt => [f.name] | _ => []

def dCppInc (ft : List String) (f : FileRecord) : List String :=
  match groupOf ft f with | .cppinc => [f.include_path] | _ => []

def dCpp (ft : List String) (f : FileRecord) : List String :=
  match groupOf ft f with | .cpp => [f.name] | _ => []

def dDep (ft : List String) (f : FileRecord) : List String :=
  match groupOf ft f with | .unused => [] | _ => [f.name]

def dUnused (ft : List String) (f : FileRecord) : List FileRecord :=
  match groupOf ft f with | .unused => [f] | _ => []

/-- Log events of the match statement for one matched type. -/
def errsOf (t : String) : List LogEvent :=
  match categoryOf t with
  | .unsupported => [unsupportedTypeError t]
  | _ => []

/-- Log events emitted while classifying one record. -/
def dLogs (ft : List String) (f : FileRecord) : List LogEvent :=
  match matchIndices ft f.file_type with
  | [] => []
  | idx :: rest =>
    (if rest.isEmpty then [] else [multiMatchWarning]) ++ errsOf (ft.getD idx "")

/-! ## Flist.setup (flist.py lines 140-205) -/

/-- The keys of Flist._SIM_PREFIXES: the supported simulators. -/
def _SIM_PREFIXES_SIMS : List String :=
  ["verilator", "xcelium", "modelsim", "questa"]

/-- The define entry of Flist._SIM_PREFIXES for a supported simulator:
every entry maps define to "+define+". -/
def sim_define_str (simulator : String) : String :=
  if simulator = "verilator" then "+define+"
  else if simulator = "xcelium" then "+define+"
  else if simulator = "modelsim" then "+define+"
  else "+define+"

/-- The param entry of Flist._SIM_PREFIXES for a supported simulator, with
the format_map of flist.py line 166 applied to the toplevel (only the
xcelium entry contains the toplevel placeholder). -/
def sim_param_str (simulator toplevel : String) : String :=
  if simulator = "xcelium" then "-defparam " ++ toplevel ++ "."
  else "-G"

/-- Modelled from the spec: Edatool._param_value_str lives in the upstream
edalize base class, which is not among this repository's sources.
Parameter and define values are taken as literal strings; the value is
wrapped in the given quote style. -/
def _param_value_str (param_value str_quote_style : String) : String :=
  str_quote_style ++ param_value ++ str_quote_style

/-- Modelled from the spec: Path.resolve over the work root (flist.py
line 211-213) is filesystem path joining; embedded as string joining with
a path separator, which keeps emission order and distinctness. -/
def absolute_path (work_root path : String) : String :=
  work_root ++ "/" ++ path

/-- Tool options of Flist (TOOL_OPTIONS at flist.py lines 39-49). -/
structure FlistOptions where
  file_types : Option (List String) := none
  simulator : Option String := none
deriving Repr, DecidableEq

/-- The inputs Flist.setup reads from the EDAM manifest and from
Edatool.setup (name, work root, toplevel, defines, parameters, files). -/
structure FlistInput where
  name : String
  work_root : String
  toplevel : String
  vlogdefine : List (String × String) := []
  vlogparam : List (String × String) := []
  files : List FileRecord := []
  tool_options : FlistOptions := {}
deriving Repr, DecidableEq

/-- What Flist.setup produces: the argument-file lines self.f, the files
list of the updated manifest self.edam, the sources of the single
command (depfiles) and the default target. -/
structure FlistResult where
  f : List String
  edam_files : List FileRecord
  depfiles : List String
  default_target : String
  logs : List LogEvent
deriving Repr, DecidableEq

/-- flist.py Flist.setup (lines 140-205).  The failed assert at lines
152-154 is an error value carrying the assertion text and the
argument-file lines emitted up to that point (none: self.f is still
empty there). -/
def Flist_setup (inp : FlistInput) : Except (String × List String) FlistResult :=
  let (simulator, logs0) :=
    match inp.tool_options.simulator with
    | none =>
      ("verilator",
       [(⟨.warning, "No simulator specified for Flist, defaulting to verilator"⟩ :
         LogEvent)])
    | some s => (s, [])
  if simulator ∈ _SIM_PREFIXES_SIMS then
    let fDefines := inp.vlogdefine.map
      (fun kv => sim_define_str simulator ++ kv.1 ++ "=" ++
        _param_value_str kv.2 "")
    let fParams := inp.vlogparam.map
      (fun kv => sim_param_str simulator inp.toplevel ++ kv.1 ++ "=" ++
        _param_value_str kv.2 "\x22")
    let file_types := inp.tool_options.file_types.getD _RTL_SOURCE_TYPES
    let fl := _generate_file_list inp.files file_types
    let fInc := fl.1.incdirs.map
      (fun d => "+incdir+" ++ absolute_path inp.work_root d)
    let fCppInc := fl.1.cpp_incdirs.map
      (fun d => "-I" ++ absolute_path inp.work_root d)
    let fSrc := (fl.1.vlt_files ++ fl.1.rtl_files).map
      (fun file => absolute_path inp.work_root file)
    let output_file := inp.name ++ ".f"
    .ok { f := fDefines ++ fParams ++ fInc ++ fCppInc ++ fSrc,
          edam_files := fl.1.unused_files ++
            [{ name := output_file, file_type := "verilogSource" }],
          depfiles := fl.1.depfiles,
          default_target := output_file,
          logs := logs0 ++ fl.2 }
  else
    .error (simulator ++ " not in supported simulators", [])

/-! ## Xcelium.setup (xcelium.py lines 43-140) -/

/-- Python toplevel.split(" ") on explicit character lists. -/
def splitChar (c : Char) : List Char → List (List Char)
  | [] => [[]]
  | a :: as =>
    let r := splitChar c as
    if a == c then [] :: r
    else
      match r with
      | [] => [[a]]
      | g :: gs => (a :: g) :: gs

/-- Python s.split(" "). -/
def splitSpaces (s : String) : List String :=
  (splitChar ' ' s.data).map (fun cs => String.mk cs)

/-- Python " ".join(args). -/
def joinSpaces : List String → String
  | [] => ""
  | [a] => a
  | a :: as => a ++ " " ++ joinSpaces as

/-- Tool options of Xcelium (TOOL_OPTIONS at xcelium.py lines 16-41). -/
structure XceliumOptions where
  timescale : Option String := none
  xmvhdl_options : List String := []
  xmvlog_options : List String := []
  xmsim_options : List String := []
  xrun_options : List String := []
deriving Repr, DecidableEq

/-- The inputs Xcelium.setup reads from the EDAM manifest and from
Edatool.setup. -/
structure XceliumInput where
  name : String
  work_root : String
  toplevel : String
  vlogdefine : List (String × String) := []
  vlogparam : List (String × String) := []
  files : List FileRecord := []
  tool_options : XceliumOptions := {}
deriving Repr, DecidableEq

/-- What Xcelium.setup produces: the argument-file lines self.f_list, the
files list of the updated manifest self.edam, the xrun command with its
sources (depfiles) and the default target. -/
structure XceliumResult where
  f_list : List String
  edam_files : List FileRecord
  depfiles : List String
  command_args : List String
  default_target : String
deriving Repr, DecidableEq

/-- State threaded through the source-file loop of Xcelium.setup
(xcelium.py lines 67-105). -/
structure XcLoopState where
  f_list : List String
  incdirs : List String
  depfiles : List String
  unused_files : List FileRecord
deriving Repr, DecidableEq

/-- xcelium.py lines 67-105: one iteration of the source-file loop.  Note
that the else branch at lines 91-92 only clears the depfile flag; nothing
is ever appended to unused_files. -/
def xcelium_process_file (opts : XceliumOptions) (work_root : String)
    (st : XcLoopState) (f : FileRecord) : XcLoopState :=
  let cmdArgs : Option (String × List String) :=
    if startswith f.file_type "verilogSource" ||
        startswith f.file_type "systemVerilogSource" then
      some ("xmvlog", opts.xmvlog_options ++
        (if startswith f.file_type "systemVerilogSource" then ["-sv"] else []))
    else if startswith f.file_type "vhdlSource" then
      some ("xmvhdl",
        (if endswith f.file_type "-93" then ["-v93"]
         else if endswith f.file_type "-2008" then ["-v200x"]
         else []) ++ opts.xmvhdl_options)
    else none
  let depfile := cmdArgs.isSome
  let st1 := if depfile then { st with depfiles := st.depfiles ++ [f.name] }
             else st
  match cmdArgs with
  | none => st1
  | some (_, args) =>
    let args := args ++ [absolute_path work_root f.name]
    let logical :=
      match f.logical_name with
      | some s => if s = "" then "worklib" else s
      | none => "worklib"
    let line := "-makelib " ++ logical ++ " " ++ joinSpaces args ++ " -endlib"
    let (dirs, isInc) := _add_include_dir f st1.incdirs
    let st2 := { st1 with incdirs := dirs }
    if isInc then st2 else { st2 with f_list := st2.f_list ++ [line] }

/-- xcelium.py Xcelium.setup (lines 43-140). -/
def Xcelium_setup (inp : XceliumInput) : XceliumResult :=
  let defs := inp.vlogdefine.map
    (fun kv => "+define+" ++ kv.1 ++ "=" ++ _param_value_str kv.2 "" ++ "\n")
  let params := listJoinMap
    (fun kv => listJoinMap
      (fun t => ["-defparam",
        t ++ "." ++ kv.1 ++ "=" ++ _param_value_str kv.2 "\x22"])
      (splitSpaces inp.toplevel))
    inp.vlogparam
  let st := inp.files.foldl (xcelium_process_file inp.tool_options inp.work_root)
    { f_list := [], incdirs := [], depfiles := [], unused_files := [] }
  let incLines := st.incdirs.map
    (fun d => "+incdir+" ++ absolute_path inp.work_root d)
  let output_file := inp.name ++ ".f"
  let xmsim_opts := inp.tool_options.xmsim_options
  { f_list := defs ++ params ++ st.f_list ++ incLines,
    edam_files := st.unused_files ++
      [{ name := output_file, file_type := "verilogSource" }],
    depfiles := st.depfiles,
    command_args :=
      ["xrun"] ++ ["-q"] ++ ["-elaborate"] ++
      (splitSpaces inp.toplevel).map (fun t => "-top " ++ t) ++
      (if xmsim_opts.isEmpty then [] else ["-xmsimargs"] ++ xmsim_opts) ++
      ["-f", output_file] ++ ["-access", "rwc"] ++
      ["-timescale", inp.tool_options.timescale.getD "10ps/1ps"],
    default_target := inp.name }

/-! ## Depcheck (depcheck.py) and the flow graph -/

/-- A node value of the flow dict built by Depcheck.configure_flow:
its ordered upstream dependency ids.  The fdto entry added for the
elaboration node is always the empty dict, since
Depcheck.FLOW_DEFINED_TOOL_OPTIONS = {}. -/
structure FlowNodeSpec where
  deps : List String
deriving Repr, DecidableEq

/-- Python dict insertion on an association list: update in place if the
key exists, append otherwise. -/
def dictInsert (d : List (String × FlowNodeSpec)) (k : String)
    (v : FlowNodeSpec) : List (String × FlowNodeSpec) :=
  if d.any (fun p => p.1 = k) then
    d.map (fun p => if p.1 = k then (k, v) else p)
  else d ++ [(k, v)]

/-- depcheck.py Depcheck.configure_flow (lines 39-58): the flow dict it
passes to FlowGraph.fromdict, as an insertion-ordered association list. -/
def Depcheck_configure_flow (frontends : List String) (tool : String) :
    List (String × FlowNodeSpec) :=
  let acc := frontends.foldl
    (fun (acc : List (String × FlowNodeSpec) × List String) frontend =>
      (dictInsert acc.1 frontend ⟨acc.2⟩, [frontend]))
    ([], [])
  dictInsert acc.1 tool ⟨acc.2⟩

/-- Modelled from the spec: FlowGraph.fromdict lives in the upstream
edalize framework, which is not among this repository's sources.  Per the
spec it builds the nodes in declaration order, and a node referencing a
dependency id that has not been declared earlier is rejected before
construction proceeds. -/
def FlowGraph_fromdict (d : List (String × FlowNodeSpec)) :
    Except String (List (String × FlowNodeSpec)) :=
  if d.enum.all
      (fun p => p.2.2.deps.all (fun dep => (d.take p.1).any (fun q => q.1 = dep)))
  then .ok d
  else .error "undeclared dependency id"

/-- depcheck.py Depcheck.configure_tools (lines 60-76): dispatches on the
tool flow option and sets the flow default target from the tool node's
own default target.  nodeDefaultTarget gives, for each node id, the
default target of that node's tool instance
(graph.get_node(tool).inst.commands.default_target). -/
def Depcheck_configure_tools (tool : String)
    (nodeDefaultTarget : String → String) : Except String String :=
  if tool = "xcelium" then .ok (nodeDefaultTarget tool)
  else if tool = "vivado" then .error "Elab with Vivado not yet implemented"
  else .error "Invalid tool specified"

/-- The outcome of handing the composed build to the external BuildDriver. -/
inductive RunOutcome
  | success
  | buildFailed
  | driverNotFound
deriving Repr, DecidableEq

/-- A Python exception escaping the build-driver invocation. -/
inductive PyExc
  | runtimeError (msg : String)
  | otherExc (msg : String)
deriving Repr, DecidableEq

/-- Modelled from the spec: Edaflow._run_tool lives in the upstream
edalize framework, which is not among this repository's sources.  It
invokes the external BuildDriver, which reports failure via process exit
status.  Per the design notes of the spec, the current driver layer is a
broad exception catch around external process failure: both a build that
the driver ran and reported as failed and a driver executable that could
not be invoked at all surface as the same runtime error at the call site. -/
def _run_tool (outcome : RunOutcome) : Except PyExc Unit :=
  match outcome with
  | .success => .ok ()
  | .buildFailed => .error (.runtimeError "make exited with an error code")
  | .driverNotFound =>
    .error (.runtimeError "Command make not found. Make sure it is in PATH")

/-- What Depcheck.build leaves behind: the lines it printed and the exit
status when it terminated the process (exit(0) at depcheck.py line 86). -/
structure BuildResult where
  printed : List String
  exitStatus : Option Nat
deriving Repr, DecidableEq

/-- depcheck.py Depcheck.build (lines 78-88): runs make through
_run_tool, catches RuntimeError only, prints the incorrect-dependencies
diagnostic and exits 0 on that catch; any other exception propagates. -/
def Depcheck_build (edam_name : String) (outcome : RunOutcome) :
    Except PyExc BuildResult :=
  match _run_tool outcome with
  | .ok () =>
    .ok { printed := ["All dependencies correctly specified!"],
          exitStatus := none }
  | .error (.runtimeError _) =>
    .ok { printed :=
            ["Dependencies incorrectly specified for core " ++ edam_name],
          exitStatus := some 0 }
  | .error e => .error e

/-- Whether a log event is warning-level. -/
def isWarning (e : LogEvent) : Bool :=
  match e.level with
  | .warning => true
  | .error => false

/-! ## Concrete inputs used by counterexamples and witnesses -/

/-- A record whose type matches a filter but falls to the default case of
the match statement. -/
def c1Record : FileRecord := ⟨"x", "foo", false, "", none⟩

/-- A record matching no RTL filter of Xcelium.setup. -/
def c4Record : FileRecord := ⟨"x.py", "pythonSource", false, "", none⟩

/-- An Xcelium.setup input whose only file matches no filter. -/
def c4Input : XceliumInput :=
  { name := "core", work_root := "wr", toplevel := "top", files := [c4Record] }

/-- A record for the multi-match scenario. -/
def c6Record : FileRecord := ⟨"w.vlt", "vlt", false, "", none⟩

/-- Filters for the multi-match scenario: the type of c6Record matches
exactly the filters at indices 2 and 5. -/
def c6Types : List String := ["q", "r", "vlt", "s", "t", "vl"]

/-- A Flist.setup input naming an unsupported simulator. -/
def c9Input : FlistInput :=
  { name := "c", work_root := "w", toplevel := "t",
    tool_options := { simulator := some "icarus" } }

/-- A Flist.setup input with no simulator option. -/
def c10Input : FlistInput :=
  { name := "c", work_root := "w", toplevel := "t" }

/-- The same input with the simulator option set to verilator. -/
def withVerilator (inp : FlistInput) : FlistInput :=
  { inp with tool_options :=
      { inp.tool_options with simulator := some "verilator" } }

/-- The warning of flist.py line 150. -/
def noSimWarning : LogEvent :=
  ⟨.warning, "No simulator specified for Flist, defaulting to verilator"⟩

/-! ## Shared lemmas about the classifier -/

lemma vlt_not_rtl_type : "vlt" ∉ _RTL_SOURCE_TYPES := by decide

lemma cppSource_not_rtl_type : "cppSource" ∉ _RTL_SOURCE_TYPES := by decide

/-- One classification step, expressed through per-record deltas. -/
lemma generate_one_eq (ft : List String) (f : FileRecord) (r : FileList) :
    generate_one ft r f =
      ({ incdirs := r.incdirs ++ dIncdirs ft f,
         rtl_files := r.rtl_files ++ dRtl ft f,
         vlt_files := r.vlt_files ++ dVlt ft f,
         cpp_incdirs := r.cpp_incdirs ++ dCppInc ft f,
         cpp_files := r.cpp_files ++ dCpp ft f,
         depfiles := r.depfiles ++ dDep ft f,
         unused_files := r.unused_files ++ dUnused ft f }, dLogs ft f) := by
  cases h : matchIndices ft f.file_type with
  | nil =>
    simp [generate_one, dIncdirs, dRtl, dVlt, dCppInc, dCpp, dDep, dUnused,
      dLogs, groupOf, matchedType, h]
  | cons idx rest =>
    simp only [generate_one, classify_as, _add_include_dir, dIncdirs, dRtl,
      dVlt, dCppInc, dCpp, dDep, dUnused, dLogs, errsOf, groupOf, matchedType,
      categoryOf, h]
    generalize List.getD ft idx "" = t
    by_cases h1 : t ∈ _RTL_SOURCE_TYPES
    · by_cases hi : f.is_include_file <;> simp [h1, hi]
    · by_cases h2 : t = "vlt"
      · simp [h2, vlt_not_rtl_type]
      · by_cases h3 : t = "cppSource"
        · by_cases hi : f.is_include_file <;>
            simp [h3, hi, cppSource_not_rtl_type]
        · simp [h1, h2, h3]

lemma generate_step_eq (ft : List String) (f : FileRecord) (r : FileList)
    (logs : List LogEvent) :
    generate_step ft (r, logs) f =
      ({ incdirs := r.incdirs ++ dIncdirs ft f,
         rtl_files := r.rtl_files ++ dRtl ft f,
         vlt_files := r.vlt_files ++ dVlt ft f,
         cpp_incdirs := r.cpp_incdirs ++ dCppInc ft f,
         cpp_files := r.cpp_files ++ dCpp ft f,
         depfiles := r.depfiles ++ dDep ft f,
         unused_files := r.unused_files ++ dUnused ft f },
       logs ++ dLogs ft f) := by
  simp only [generate_step, generate_one_eq]

lemma generate_fold_eq (ft : List String) :
    ∀ (files : List FileRecord) (r : FileList) (logs : List LogEvent),
      files.foldl (generate_step ft) (r, logs) =
      ({ incdirs := r.incdirs ++ listJoinMap (dIncdirs ft) files,
         rtl_files := r.rtl_files ++ listJoinMap (dRtl ft) files,
         vlt_files := r.vlt_files ++ listJoinMap (dVlt ft) files,
         cpp_incdirs := r.cpp_incdirs ++ listJoinMap (dCppInc ft) files,
         cpp_files := r.cpp_files ++ listJoinMap (dCpp ft) files,
         depfiles := r.depfiles ++ listJoinMap (dDep ft) files,
         unused_files := r.unused_files ++ listJoinMap (dUnused ft) files },
       logs ++ listJoinMap (dLogs ft) files) := by
  intro files
  induction files with
  | nil => intro r logs; simp [listJoinMap]
  | cons f l ih =>
    intro r logs
    rw [List.foldl_cons, generate_step_eq, ih]
    simp [listJoinMap, List.append_assoc]

/-- The full characterization of Flist._generate_file_list. -/
lemma generate_file_list_eq (files : List FileRecord) (ft : List String) :
    _generate_file_list files ft =
      ({ incdirs := listJoinMap (dIncdirs ft) files,
         rtl_files := listJoinMap (dRtl ft) files,
         vlt_files := listJoinMap (dVlt ft) files,
         cpp_incdirs := listJoinMap (dCppInc ft) files,
         cpp_files := listJoinMap (dCpp ft) files,
         depfiles := listJoinMap (dDep ft) files,
         unused_files := listJoinMap (dUnused ft) files },
       listJoinMap (dLogs ft) files) := by
  rw [_generate_file_list, generate_fold_eq]
  simp

lemma listJoinMap_guard (p : α → Bool) (g : α → β) (d : α → List β)
    (hd : ∀ a, d a = if p a then [g a] else []) :
    ∀ l : List α, listJoinMap d l = (l.filter p).map g := by
  intro l
  induction l with
  | nil => rfl
  | cons a l ih =>
    rw [listJoinMap, hd a, List.filter_cons]
    by_cases hp : p a <;> simp [hp, ih]

lemma dIncdirs_ite (ft : List String) :
    ∀ f, dIncdirs ft f = if pIncdir ft f then [f.include_path] else [] := by
  intro f; cases hg : groupOf ft f <;> simp [dIncdirs, pIncdir, hg]

lemma dRtl_ite (ft : List String) :
    ∀ f, dRtl ft f = if pRtl ft f then [f.name] else [] := by
  intro f; cases hg : groupOf ft f <;> simp [dRtl, pRtl, hg]

lemma dVlt_ite (ft : List String) :
    ∀ f, dVlt ft f = if pVlt ft f then [f.name] else [] := by
  intro f; cases hg : groupOf ft f <;> simp [dVlt, pVlt, hg]

lemma dCppInc_ite (ft : List String) :
    ∀ f, dCppInc ft f = if pCppInc ft f then [f.include_path] else [] := by
  intro f; cases hg : groupOf ft f <;> simp [dCppInc, pCppInc, hg]

lemma dCpp_ite (ft : List String) :
    ∀ f, dCpp ft f = if pCpp ft f then [f.name] else [] := by
  intro f; cases hg : groupOf ft f <;> simp [dCpp, pCpp, hg]

lemma dDep_ite (ft : List String) :
    ∀ f, dDep ft f = if pMatched ft f then [f.name] else [] := by
  intro f; cases hg : groupOf ft f <;> simp [dDep, pMatched, hg]

lemma dUnused_ite (ft : List String) :
    ∀ f, dUnused ft f = if !pMatched ft f then [f] else [] := by
  intro f; cases hg : groupOf ft f <;> simp [dUnused, pMatched, hg]

/-- Each record lands in exactly one of the seven destinations. -/
lemma groupTag_point (ft : List String) (f : FileRecord) :
    ((if pIncdir ft f then 1 else 0) + (if pRtl ft f then 1 else 0) +
     (if pVlt ft f then 1 else 0) + (if pCppInc ft f then 1 else 0) +
     (if pCpp ft f then 1 else 0) + (if pUnsupported ft f then 1 else 0) +
     (if !pMatched ft f then 1 else 0) : Nat) = 1 := by
  cases hg : groupOf ft f <;>
    simp [pIncdir, pRtl, pVlt, pCppInc, pCpp, pUnsupported, pMatched, hg]

lemma countP_partition (ft : List String) (files : List FileRecord) :
    files.countP (pIncdir ft) + files.countP (pRtl ft) +
    files.countP (pVlt ft) + files.countP (pCppInc ft) +
    files.countP (pCpp ft) + files.countP (pUnsupported ft) +
    files.countP (fun f => !pMatched ft f) = files.length := by
  induction files with
  | nil => rfl
  | cons f l ih =>
    simp only [List.countP_cons, List.length_cons]
    have h := groupTag_point ft f
    omega

lemma enumFrom_filter_indices_ge (p : Nat × String → Bool) :
    ∀ (n : Nat) (l : List String) (j : Nat),
      j ∈ ((List.enumFrom n l).filter p).map Prod.fst → n ≤ j := by
  intro n l
  induction l generalizing n with
  | nil => intro j hj; simp [List.enumFrom] at hj
  | cons a l ih =>
    intro j hj
    simp only [List.enumFrom, List.filter_cons] at hj
    by_cases hp : p (n, a)
    · rw [if_pos hp] at hj
      simp only [List.map_cons, List.mem_cons] at hj
      rcases hj with hj | hj
      · omega
      · have := ih (n + 1) j hj
        omega
    · rw [if_neg hp] at hj
      have := ih (n + 1) j hj
      omega

lemma enumFrom_filter_head_min (p : Nat × String → Bool) :
    ∀ (n : Nat) (l : List String) (i : Nat) (rest : List Nat),
      ((List.enumFrom n l).filter p).map Prod.fst = i :: rest →
      ∀ j ∈ rest, i ≤ j := by
  intro n l
  induction l generalizing n with
  | nil => intro i rest h; simp [List.enumFrom] at h
  | cons a l ih =>
    intro i rest h j hj
    simp only [List.enumFrom, List.filter_cons] at h
    by_cases hp : p (n, a)
    · rw [if_pos hp] at h
      simp only [List.map_cons, List.cons.injEq] at h
      obtain ⟨rfl, hrest⟩ := h
      have := enumFrom_filter_indices_ge p (n + 1) l j (hrest ▸ hj)
      omega
    · rw [if_neg hp] at h
      exact ih (n + 1) i rest h j hj

/-- The head of the match-index list is minimal: the first match in
filter order. -/
lemma matchIndices_head_min (ft : List String) (s : String) (i : Nat)
    (rest : List Nat) (h : matchIndices ft s = i :: rest) :
    ∀ j ∈ (i :: rest), i ≤ j := by
  intro j hj
  rcases List.mem_cons.1 hj with rfl | hj
  · exact le_refl j
  · exact enumFrom_filter_head_min _ 0 ft i rest
      (by rw [← h, matchIndices, List.enum]) j hj

lemma classify_as_snd (t : String) (f : FileRecord) (r : FileList) :
    (classify_as t f r).2 = errsOf t := by
  by_cases h1 : t ∈ _RTL_SOURCE_TYPES
  · by_cases hi : f.is_include_file <;>
      simp [classify_as, errsOf, categoryOf, _add_include_dir, h1, hi]
  · by_cases h2 : t = "vlt"
    · simp [classify_as, errsOf, categoryOf, h2, vlt_not_rtl_type]
    · by_cases h3 : t = "cppSource"
      · by_cases hi : f.is_include_file <;>
          simp [classify_as, errsOf, categoryOf, _add_include_dir, h3, hi,
            cppSource_not_rtl_type]
      · simp [classify_as, errsOf, categoryOf, h1, h2, h3]

lemma errsOf_no_warning (t : String) :
    (errsOf t).filter isWarning = [] := by
  rw [errsOf]
  cases categoryOf t <;> simp [unsupportedTypeError, isWarning]

lemma verilator_supported : ("verilator" : String) ∈ _SIM_PREFIXES_SIMS := by
  decide

/-! ## Claim theorems -/

/-- Claim C1, counterexample: a single input record whose type matches a
filter whose text is not a supported category (here the filter "foo") is
placed in no output group and not in unused_files, so the sum of the five
group sizes plus the unused size is 0 while the input has one record.
This refutes the claim that the sum always equals the input size. -/
theorem C1_counterexample :
    ¬ ((_generate_file_list [c1Record] ["foo"]).1.incdirs.length +
       (_generate_file_list [c1Record] ["foo"]).1.rtl_files.length +
       (_generate_file_list [c1Record] ["foo"]).1.vlt_files.length +
       (_generate_file_list [c1Record] ["foo"]).1.cpp_incdirs.length +
       (_generate_file_list [c1Record] ["foo"]).1.cpp_files.length +
       (_generate_file_list [c1Record] ["foo"]).1.unused_files.length =
       [c1Record].length) := by
  decide

/-- Claim C1, amended: for every input list and filter list, the total
number of entries across the output groups (incdirs, rtl_files,
vlt_files, cpp_incdirs, cpp_files) plus the number of unused_files
entries plus the number of records whose matched category is unsupported
equals the number of input records. -/
theorem C1_no_file_loss_amended (files : List FileRecord)
    (ft : List String) :
    (_generate_file_list files ft).1.incdirs.length +
    (_generate_file_list files ft).1.rtl_files.length +
    (_generate_file_list files ft).1.vlt_files.length +
    (_generate_file_list files ft).1.cpp_incdirs.length +
    (_generate_file_list files ft).1.cpp_files.length +
    (_generate_file_list files ft).1.unused_files.length +
    (files.filter (pUnsupported ft)).length = files.length := by
  rw [generate_file_list_eq]
  simp only [listJoinMap_guard _ _ _ (dIncdirs_ite ft),
    listJoinMap_guard _ _ _ (dRtl_ite ft),
    listJoinMap_guard _ _ _ (dVlt_ite ft),
    listJoinMap_guard _ _ _ (dCppInc_ite ft),
    listJoinMap_guard _ _ _ (dCpp_ite ft),
    listJoinMap_guard _ _ _ (dUnused_ite ft),
    List.length_map]
  simp only [← List.countP_eq_length_filter]
  have h := countP_partition ft files
  omega

/-- Claim C2: for every core name, when the underlying build run raises
RuntimeError (the driver ran and reported failure), Depcheck.build prints
the incorrect-dependencies diagnostic naming the core and the process
exits with status 0. -/
theorem C2_build_failure_exit_zero (edam_name : String) :
    Depcheck_build edam_name .buildFailed =
      .ok { printed :=
              ["Dependencies incorrectly specified for core " ++ edam_name],
            exitStatus := some 0 } := rfl

/-- Claim C3, evaluation at the failing input: when the build driver
cannot be invoked at all (the runner executable is missing), the driver
layer surfaces the failure as the same runtime error as a semantic build
failure, so Depcheck.build swallows it too: it prints the
incorrect-dependencies diagnostic and exits 0 instead of propagating a
fatal error.  This contradicts the claim that such a failure is
distinguished and propagates. -/
theorem C3_driver_not_found_swallowed :
    Depcheck_build "mycore" .driverNotFound =
      .ok { printed := ["Dependencies incorrectly specified for core mycore"],
            exitStatus := some 0 } := rfl

/-- Claim C4, evaluation at the failing input: Xcelium.setup hands the
next stage a manifest containing only the generated .f file; the input
record x.py, which matches no type filter, does not appear in it.  This
contradicts the claim that unmatched records pass through unchanged in
both Flist.setup and Xcelium.setup: the unused_files list of
Xcelium.setup is never appended to. -/
theorem C4_xcelium_drops_unmatched_records :
    (Xcelium_setup c4Input).edam_files =
      [⟨"core.f", "verilogSource", false, "", none⟩] ∧
    c4Record ∉ (Xcelium_setup c4Input).edam_files := by
  decide

/-- Claim C5: appending to any input list a record whose type matches a
filter whose matched category is unsupported (not an RTL source type, not
vlt, not cppSource) leaves every compile group and unused_files unchanged,
still appends the record name to depfiles, and logs exactly one
error-level event (plus the multi-match warning when applicable), without
raising. -/
theorem C5_unsupported_category_kept_as_dep (ft : List String)
    (f : FileRecord) (files : List FileRecord) (i : Nat) (rest : List Nat)
    (h : matchIndices ft f.file_type = i :: rest)
    (hcat : categoryOf (ft.getD i "") = .unsupported) :
    (_generate_file_list (files ++ [f]) ft).1 =
      { (_generate_file_list files ft).1 with
        depfiles := (_generate_file_list files ft).1.depfiles ++ [f.name] } ∧
    (_generate_file_list (files ++ [f]) ft).2 =
      (_generate_file_list files ft).2 ++
        ((if rest.isEmpty then [] else [multiMatchWarning]) ++
         [unsupportedTypeError (ft.getD i "")]) := by
  have hmt : matchedType ft f = some (ft.getD i "") := by
    rw [matchedType, h]
  have hg : groupOf ft f = .unsupported := by
    simp only [groupOf, hmt, hcat]
  have hstep : _generate_file_list (files ++ [f]) ft =
      generate_step ft (_generate_file_list files ft) f := by
    rw [_generate_file_list, _generate_file_list, List.foldl_append,
      List.foldl_cons, List.foldl_nil]
  rw [hstep]
  cases hfl : _generate_file_list files ft with
  | mk r logs =>
    rw [generate_step_eq]
    constructor
    · simp [dIncdirs, dRtl, dVlt, dCppInc, dCpp, dDep, dUnused, hg]
    · simp only [dLogs, h, errsOf, hcat]

/-- Witness for claim C5 at the concrete record c1Record and filter list
containing only the unsupported filter foo. -/
theorem C5_unsupported_category_witness :
    (_generate_file_list ([] ++ [c1Record]) ["foo"]).1 =
      { (_generate_file_list [] ["foo"]).1 with
        depfiles := (_generate_file_list [] ["foo"]).1.depfiles ++ ["x"] } ∧
    (_generate_file_list ([] ++ [c1Record]) ["foo"]).2 =
      (_generate_file_list [] ["foo"]).2 ++
        ((if ([] : List Nat).isEmpty then [] else [multiMatchWarning]) ++
         [unsupportedTypeError (["foo"].getD 0 "")]) := by
  exact C5_unsupported_category_kept_as_dep ["foo"] c1Record [] 0 []
    (by decide) (by decide)

/-- Claim C6: when a file type matches more than one filter, the record
is classified by the filter at the head of the match list, that head is
the least matching index (the first matching filter in filter order), and
exactly one warning-level event is emitted for that record. -/
theorem C6_first_match_wins_one_warning (ft : List String) (f : FileRecord)
    (r : FileList) (i : Nat) (rest : List Nat)
    (h : matchIndices ft f.file_type = i :: rest) (hne : rest ≠ []) :
    (∀ j ∈ matchIndices ft f.file_type, i ≤ j) ∧
    generate_one ft r f =
      ({ (classify_as (ft.getD i "") f r).1 with
         depfiles := (classify_as (ft.getD i "") f r).1.depfiles ++ [f.name] },
       multiMatchWarning :: (classify_as (ft.getD i "") f r).2) ∧
    ((generate_one ft r f).2.filter isWarning).length = 1 := by
  have hmin : ∀ j ∈ matchIndices ft f.file_type, i ≤ j := by
    rw [h]; exact matchIndices_head_min ft f.file_type i rest h
  have hiEmp : rest.isEmpty = false := by
    cases rest with
    | nil => exact absurd rfl hne
    | cons a l => rfl
  have hgen : generate_one ft r f =
      ({ (classify_as (ft.getD i "") f r).1 with
         depfiles := (classify_as (ft.getD i "") f r).1.depfiles ++ [f.name] },
       multiMatchWarning :: (classify_as (ft.getD i "") f r).2) := by
    rw [generate_one, h]
    cases hc : classify_as (List.getD ft i "") f r with
    | mk r1 errs =>
      simp only [hc, hiEmp]
      simp
  refine ⟨hmin, hgen, ?_⟩
  rw [hgen]
  simp only [List.filter_cons]
  rw [classify_as_snd, errsOf_no_warning]
  simp [multiMatchWarning, isWarning]

/-- Witness for claim C6: the record c6Record matches exactly the filters
at indices 2 and 5 of c6Types and resolves to the category of index 2,
with exactly one warning. -/
theorem C6_first_match_witness :
    (∀ j ∈ matchIndices c6Types c6Record.file_type, 2 ≤ j) ∧
    generate_one c6Types {} c6Record =
      ({ (classify_as (c6Types.getD 2 "") c6Record {}).1 with
         depfiles :=
           (classify_as (c6Types.getD 2 "") c6Record {}).1.depfiles ++
             ["w.vlt"] },
       multiMatchWarning :: (classify_as (c6Types.getD 2 "") c6Record {}).2) ∧
    ((generate_one c6Types {} c6Record).2.filter isWarning).length = 1 := by
  exact C6_first_match_wins_one_warning c6Types c6Record {} 2 [5]
    (by decide) (by decide)

/-- Claim C7: the classifier is a stable partition.  Every output group of
Flist._generate_file_list equals an order-preserving projection of the
input list: each group is the filter of the input by the predicate
selecting that destination, mapped to the emitted field, so relative
order within every group (incdirs, rtl_files, vlt_files, cpp_incdirs,
cpp_files, depfiles, unused_files) equals input order. -/
theorem C7_stable_partition (files : List FileRecord)
    (file_types : List String) :
    (_generate_file_list files file_types).1 =
      { incdirs :=
          (files.filter (pIncdir file_types)).map FileRecord.include_path,
        rtl_files := (files.filter (pRtl file_types)).map FileRecord.name,
        vlt_files := (files.filter (pVlt file_types)).map FileRecord.name,
        cpp_incdirs :=
          (files.filter (pCppInc file_types)).map FileRecord.include_path,
        cpp_files := (files.filter (pCpp file_types)).map FileRecord.name,
        depfiles := (files.filter (pMatched file_types)).map FileRecord.name,
        unused_files := files.filter (fun f => !pMatched file_types f) } := by
  rw [generate_file_list_eq]
  simp only [listJoinMap_guard _ _ _ (dIncdirs_ite file_types),
    listJoinMap_guard _ _ _ (dRtl_ite file_types),
    listJoinMap_guard _ _ _ (dVlt_ite file_types),
    listJoinMap_guard _ _ _ (dCppInc_ite file_types),
    listJoinMap_guard _ _ _ (dCpp_ite file_types),
    listJoinMap_guard _ _ _ (dDep_ite file_types),
    listJoinMap_guard _ _ _ (dUnused_ite file_types)]
  simp [List.map_id]

/-- Claim C8: for the flow configuration with frontends lint and tool
xcelium, Depcheck.configure_flow yields a two-node graph accepted by
FlowGraph.fromdict in which the xcelium node depends on lint; for any
default targets of the nodes, Depcheck.configure_tools sets the flow
default target to the xcelium node target; and the default target of the
Xcelium tool itself is its own instance name. -/
theorem C8_two_node_flow_default_target :
    FlowGraph_fromdict (Depcheck_configure_flow ["lint"] "xcelium") =
      .ok [("lint", ⟨[]⟩), ("xcelium", ⟨["lint"]⟩)] ∧
    (∀ dt : String → String,
      Depcheck_configure_tools "xcelium" dt = .ok (dt "xcelium")) ∧
    (∀ inp : XceliumInput, (Xcelium_setup inp).default_target = inp.name) := by
  refine ⟨rfl, fun dt => rfl, fun inp => rfl⟩

/-- Claim C9: for every simulator name outside the supported set, the
Flist.setup assertion fails before any argument-file directive is
emitted: the result is the assertion error carrying the empty list of
emitted directives. -/
theorem C9_unsupported_simulator_rejected (inp : FlistInput) (s : String)
    (hs : inp.tool_options.simulator = some s)
    (hns : s ∉ _SIM_PREFIXES_SIMS) :
    Flist_setup inp = .error (s ++ " not in supported simulators", []) := by
  simp only [Flist_setup, hs]
  rw [if_neg hns]

/-- Witness for claim C9 at the unsupported simulator name icarus. -/
theorem C9_unsupported_simulator_witness :
    Flist_setup c9Input = .error ("icarus not in supported simulators", []) := by
  exact C9_unsupported_simulator_rejected c9Input "icarus" rfl (by decide)

/-- Claim C10: when the simulator tool option is absent, Flist.setup does
not fail: the run with the option explicitly set to verilator succeeds,
and the run without the option produces exactly the same result except
for one extra defaulting warning at the front of the log. -/
theorem C10_missing_simulator_defaults_verilator (inp : FlistInput)
    (h : inp.tool_options.simulator = none) :
    (∃ rv, Flist_setup (withVerilator inp) = .ok rv) ∧
    Flist_setup inp =
      (Flist_setup (withVerilator inp)).map
        (fun rv => { rv with logs := noSimWarning :: rv.logs }) := by
  constructor
  · simp only [Flist_setup, withVerilator]
    rw [if_pos verilator_supported]
    exact ⟨_, rfl⟩
  · simp only [Flist_setup, withVerilator, h]
    simp [verilator_supported, noSimWarning, Except.map]

/-- Witness for claim C10 at a concrete input with no simulator option. -/
theorem C10_missing_simulator_witness :
    (∃ rv, Flist_setup (withVerilator c10Input) = .ok rv) ∧
    Flist_setup c10Input =
      (Flist_setup (withVerilator c10Input)).map
        (fun rv => { rv with logs := noSimWarning :: rv.logs }) := by
  exact C10_missing_simulator_defaults_verilator c10Input rfl
